import Mathlib

/-!
Shallow embedding of `genomics-apps/rare-disease-app/src/components/GeneButton.tsx`.

Conventions of the embedding:
* JSON numbers are modelled as `ℚ`; the JavaScript `NaN` sentinel used as the
  default of `alleleFreq` is modelled as `none` in `Option ℚ`.
* A JavaScript field that may be absent at runtime (the TypeScript `as` casts
  perform no validation) is modelled as an `Option`.
* The TypeScript type `FHIRCoding` is a one-element tuple; the code only ever
  reads `coding[0]`, so it is embedded as that single element (a record).
* A thrown `TypeError` (indexing into `undefined`) is modelled as an explicit
  error value; the spec-level taxonomy names are used for the error kinds.
* The mutable per-instance state of the component (`range.current`,
  `APIStatus`, `geneData`) is threaded explicitly, and every outbound
  `fetch` is recorded in a request trace.
-/

/-- One clinical coding: the sole element of the one-tuple `FHIRCoding`. -/
structure FHIRCoding where
  code : String
  system : String
  display : Option String
deriving DecidableEq, Repr

/-- A `component` entry of an `FSVVariantResource`. -/
structure FSVComponent where
  code : FHIRCoding          -- `component.code.coding[0]`
  valueCodeableConcept : Option FHIRCoding   -- `valueCodeableConcept.coding[0]`
  valueString : Option String
  interpretation : Option String   -- `interpretation.text` when present
  valueQuantity : Option ℚ         -- `valueQuantity.value` when present
  valueRangeLow : Option ℚ         -- `valueRange.low.value` when present
deriving DecidableEq, Repr

/-- The variant resource carried by a `"variant"` part. -/
structure FSVVariantResource where
  category : List FHIRCoding
  code : FHIRCoding
  component : List FSVComponent
  id : String
  metaProfile : List String
  resourceType : String
  status : String
  subjectReference : String
  valueCodeableConcept : FHIRCoding
  text : Option String
deriving DecidableEq, Repr

/-- One entry of the `part` array. -/
structure FSVParameter where
  name : String
  resource : Option FSVVariantResource
  valueString : Option String
  valueBoolean : Option Bool
deriving DecidableEq, Repr

/-- A top-level `parameter` entry. The `part` field may be absent in the raw
JSON (`Option`), which is precisely the malformed case the translator hits. -/
structure FSVParameterGroup where
  name : String
  part : Option (List FSVParameter)
deriving DecidableEq, Repr

/-- The `$find-subject-variants` response payload. -/
structure FSVResponse where
  parameter : List FSVParameterGroup
  resourceType : String
deriving DecidableEq, Repr

/-- The flat output record. `alleleFreq : Option ℚ` with `none` for `NaN`. -/
structure VariantRow where
  spdi : String
  dnaChangeType : String
  sourceClass : String
  allelicState : String
  molecImpact : String
  alleleFreq : Option ℚ
deriving DecidableEq, Repr

/-- The initial `variantRow` literal of `translateComponents`: all strings
empty, `alleleFreq = NaN`. -/
def initVariantRow : VariantRow :=
  { spdi := "", dnaChangeType := "", sourceClass := "", allelicState := "",
    molecImpact := "", alleleFreq := none }

/-- One iteration of the `resource.component.map` loop in
`translateComponents`: the if/else chain over `component.code.coding[0].code`,
mutating `variantRow`. JavaScript truthiness makes an empty-string `display`
and a `0`-valued quantity behave like absent values. The source contains a
duplicated (dead) `else if` branch for `"81258-6"`, reproduced here. -/
def applyComponent (variantRow : VariantRow) (component : FSVComponent) : VariantRow :=
  if component.code.code = "48002-0" then
    match component.valueCodeableConcept with
    | some vc =>
      match vc.display with
      | some d => if d = "" then variantRow else { variantRow with sourceClass := d }
      | none => variantRow
    | none => variantRow
  else if component.code.code = "53034-5" then
    match component.valueCodeableConcept with
    | some vc =>
      match vc.display with
      | some d => if d = "" then variantRow else { variantRow with allelicState := d }
      | none => variantRow
    | none => variantRow
  else if component.code.code = "81252-9" then
    match component.valueCodeableConcept with
    | some vc =>
      match vc.display with
      | some d => if d = "" then variantRow else { variantRow with spdi := d }
      | none => variantRow
    | none => variantRow
  else if component.code.code = "81258-6" then
    match component.valueQuantity with
    | some v => if v = 0 then variantRow else { variantRow with alleleFreq := some v }
    | none => variantRow
  else if component.code.code = "81258-6" then
    match component.valueQuantity with
    | some v => if v = 0 then variantRow else { variantRow with alleleFreq := some v }
    | none => variantRow
  else if component.code.code = "molecular-consequence" then
    match component.interpretation with
    | some t => { variantRow with molecImpact := t }
    | none => variantRow
  else variantRow

/-- Embedding of `translateComponents`: fold the component loop over the initial row. -/
def translateComponents (resource : FSVVariantResource) : VariantRow :=
  resource.component.foldl applyComponent initVariantRow

/-- Error kinds of the pipeline, named after the spec taxonomy. -/
inductive PipelineError where
  | MalformedPayload
  | ResolutionFailed
deriving DecidableEq, Repr

/-- The body of the `paramArray.map` loop in `translateFHIRResponse`: skip a
part that is not a variant resource (`param.name != 'variant' ||
param.resource == null`), otherwise push the translated row onto `geneTable`. -/
def pushVariantRow (geneTable : List VariantRow) (param : FSVParameter) : List VariantRow :=
  if param.name ≠ "variant" ∨ param.resource = none then geneTable
  else
    match param.resource with
    | some r => geneTable ++ [translateComponents r]
    | none => geneTable

/-- Embedding of `translateFHIRResponse`: reads `response.parameter[0].part`; in JavaScript
an empty `parameter` array or an absent `part` makes that access (or the
subsequent `.map`) throw, embedded as `MalformedPayload`. The loop pushes one
translated row per retained entry. -/
def translateFHIRResponse (response : FSVResponse) : Except PipelineError (List VariantRow) :=
  match response.parameter with
  | [] => .error .MalformedPayload
  | g :: _ =>
    match g.part with
    | none => .error .MalformedPayload
    | some paramArray => .ok (paramArray.foldl pushVariantRow [])

/-- A JavaScript string-or-`undefined` value, the runtime type of
`range.current` (`useRef("")` later assigned `responseJson[0].build38Coordinates`,
which may be absent). -/
inductive JSStr where
  | str : String → JSStr
  | undef : JSStr
deriving DecidableEq, Repr

/-- JavaScript loose equality `x == ""` (false for `undefined`). -/
def JSStr.looseEqEmpty : JSStr → Bool
  | .str s => s = ""
  | .undef => false

/-- JavaScript string coercion used in `+` concatenation
(`undefined` prints as `"undefined"`). -/
def JSStr.coerce : JSStr → String
  | .str s => s
  | .undef => "undefined"

/-- One entry of the feature-coordinates response. Per-field optionality models
raw JSON behind the unvalidated `as FeatureCoordinates` cast; only
`build38Coordinates` is ever read. -/
structure FeatureCoordinate where
  mane : List String
  build37Coordinates : Option String
  build38Coordinates : Option String
  geneId : String
  geneLink : String
  geneSymbol : String
  transcripts : List String
deriving DecidableEq, Repr

/-- The mutable per-instance state of `GeneButton`: the coordinate cache
`range.current`, the readiness flag `APIStatus`, and the translated rows
`geneData` (initially unassigned). -/
structure GBState where
  range : JSStr
  apiStatus : String
  geneData : Option (List VariantRow)
deriving DecidableEq, Repr

/-- The state of a freshly rendered `GeneButton`. -/
def initGBState : GBState :=
  { range := .str "", apiStatus := "red", geneData := none }

def baseURLFSV : String :=
  "https://fhir-gen-ops.herokuapp.com/subject-operations/genotype-operations/$find-subject-variants?subject="

def baseURLFC : String :=
  "https://fhir-gen-ops.herokuapp.com/utilities/get-feature-coordinates?gene="

/-- An outbound `fetch`, recorded in the request trace. -/
inductive Request where
  | fc : String → Request
  | fsv : String → Request
deriving DecidableEq, Repr

/-- Embedding of `getFC`: returns the request trace, the state after execution, and the
error if the body threw. Guard: `if (range.current != "") return`. Otherwise
one fetch is issued; the parsed JSON is never an `Error` instance, so the
`else` branch always sets `APIStatus = 'yellow'`; then
`range.current = responseJson[0].build38Coordinates` throws a `TypeError`
(modelled `ResolutionFailed`) when the response sequence is empty, and caches
`undefined` when the first entry lacks the field. -/
def getFC (gene : String) (env : List FeatureCoordinate) (st : GBState) :
    List Request × GBState × Option PipelineError :=
  if ¬ st.range.looseEqEmpty then ([], st, none)
  else
    let url := baseURLFC ++ gene
    let st1 := { st with apiStatus := "yellow" }
    match env with
    | [] => ([.fc url], st1, some .ResolutionFailed)
    | e :: _ =>
      ([.fc url],
       { st1 with range := match e.build38Coordinates with
                           | some s => .str s
                           | none => .undef },
       none)

/-- Embedding of `getFSV`: guard `if (range.current == "") return` (note: an `undefined`
range does NOT satisfy this loose equality and falls through to the fetch).
One fetch is issued with the coerced range in the URL; the parsed JSON is
never an `Error` instance, so the `else` branch runs: translation failure
propagates as a thrown error, success stores `geneData` and sets
`APIStatus = 'green'`. -/
def getFSV (patientID : String) (env : FSVResponse) (st : GBState) :
    List Request × GBState × Option PipelineError :=
  if st.range.looseEqEmpty then ([], st, none)
  else
    let url := baseURLFSV ++ patientID ++ "&ranges=" ++ st.range.coerce ++ "&includeVariants=true"
    match translateFHIRResponse env with
    | .error e => ([.fsv url], st, some e)
    | .ok rows => ([.fsv url], { st with geneData := some rows, apiStatus := "green" }, none)

/-- Embedding of `getFHIRResponse`: `await getFC()` then `await getFSV()`; a rejection of
the first await skips the second call and propagates. -/
def getFHIRResponse (gene patientID : String) (fcEnv : List FeatureCoordinate)
    (fsvEnv : FSVResponse) (st : GBState) :
    List Request × GBState × Option PipelineError :=
  match getFC gene fcEnv st with
  | (reqs1, st1, some e) => (reqs1, st1, some e)
  | (reqs1, st1, none) =>
    match getFSV patientID fsvEnv st1 with
    | (reqs2, st2, err2) => (reqs1 ++ reqs2, st2, err2)

/-- The entries retained by the translator loop: named `"variant"` with a
resource present. -/
def isVariantEntry (param : FSVParameter) : Bool :=
  param.name == "variant" && param.resource.isSome

/-- The row a retained entry contributes. -/
def entryRow (param : FSVParameter) : VariantRow :=
  (param.resource.map translateComponents).getD initVariantRow

lemma pushVariantRow_skip (geneTable : List VariantRow) (param : FSVParameter)
    (h : isVariantEntry param = false) : pushVariantRow geneTable param = geneTable := by
  unfold pushVariantRow
  rw [if_pos]
  cases hr : param.resource with
  | none => exact Or.inr rfl
  | some r =>
    left
    simp only [isVariantEntry, hr, Option.isSome_some, Bool.and_true, beq_eq_false_iff_ne] at h
    exact h

lemma pushVariantRow_keep (geneTable : List VariantRow) (param : FSVParameter)
    (h : isVariantEntry param = true) :
    pushVariantRow geneTable param = geneTable ++ [entryRow param] := by
  simp only [isVariantEntry, Bool.and_eq_true, beq_iff_eq, Option.isSome_iff_exists] at h
  obtain ⟨hname, r, hr⟩ := h
  unfold pushVariantRow entryRow
  rw [if_neg, hr]
  · simp
  · simp [hname, hr]

lemma foldl_pushVariantRow (l : List FSVParameter) (acc : List VariantRow) :
    l.foldl pushVariantRow acc = acc ++ (l.filter isVariantEntry).map entryRow := by
  induction l generalizing acc with
  | nil => simp
  | cons p l ih =>
    rw [List.foldl_cons, ih]
    cases hp : isVariantEntry p with
    | false => rw [pushVariantRow_skip _ _ hp, List.filter_cons_of_neg (by simp [hp])]
    | true =>
      rw [pushVariantRow_keep _ _ hp, List.filter_cons_of_pos (by simp [hp])]
      simp

/-- Characterization of a successful translation: the output is the ordered
image of the retained entries. -/
lemma translateFHIRResponse_ok (response : FSVResponse) (g : FSVParameterGroup)
    (rest : List FSVParameterGroup) (parts : List FSVParameter)
    (hp : response.parameter = g :: rest) (hpart : g.part = some parts) :
    translateFHIRResponse response = .ok ((parts.filter isVariantEntry).map entryRow) := by
  unfold translateFHIRResponse
  rw [hp]
  simp only [hpart]
  rw [foldl_pushVariantRow]
  simp

/-- The write a component performs on the coded-concept target field of
`target` (one of `"48002-0"`, `"53034-5"`, `"81252-9"`): present iff the
leading coding code equals `target` and a truthy (non-empty) display is
present. -/
def ccWrite (target : String) (c : FSVComponent) : Option String :=
  if c.code.code = target then
    match c.valueCodeableConcept with
    | some vc =>
      match vc.display with
      | some d => if d = "" then none else some d
      | none => none
    | none => none
  else none

/-- The write a component performs on `alleleFreq`: a present, truthy
(non-zero) quantity value under code `"81258-6"`. -/
def freqWrite (c : FSVComponent) : Option (Option ℚ) :=
  if c.code.code = "81258-6" then
    match c.valueQuantity with
    | some v => if v = 0 then none else some (some v)
    | none => none
  else none

/-- The write a component performs on `molecImpact`: the interpretation text
under code `"molecular-consequence"`. -/
def impactWrite (c : FSVComponent) : Option String :=
  if c.code.code = "molecular-consequence" then c.interpretation else none

lemma applyComponent_sourceClass (row : VariantRow) (c : FSVComponent) :
    (applyComponent row c).sourceClass = (ccWrite "48002-0" c).getD row.sourceClass := by
  unfold applyComponent ccWrite
  repeat' split
  all_goals simp_all

lemma applyComponent_allelicState (row : VariantRow) (c : FSVComponent) :
    (applyComponent row c).allelicState = (ccWrite "53034-5" c).getD row.allelicState := by
  unfold applyComponent ccWrite
  repeat' split
  all_goals simp_all

lemma applyComponent_spdi (row : VariantRow) (c : FSVComponent) :
    (applyComponent row c).spdi = (ccWrite "81252-9" c).getD row.spdi := by
  unfold applyComponent ccWrite
  repeat' split
  all_goals simp_all

lemma applyComponent_alleleFreq (row : VariantRow) (c : FSVComponent) :
    (applyComponent row c).alleleFreq = (freqWrite c).getD row.alleleFreq := by
  unfold applyComponent freqWrite
  repeat' split
  all_goals simp_all

lemma applyComponent_molecImpact (row : VariantRow) (c : FSVComponent) :
    (applyComponent row c).molecImpact = (impactWrite c).getD row.molecImpact := by
  unfold applyComponent impactWrite
  repeat' split
  all_goals simp_all

lemma applyComponent_dnaChangeType (row : VariantRow) (c : FSVComponent) :
    (applyComponent row c).dnaChangeType = row.dnaChangeType := by
  unfold applyComponent
  repeat' split
  all_goals simp_all

/-- The flat assignment semantics of the component loop: any projection whose
per-component write is described by `f` ends at the last write, or at its
starting value when no component writes. -/
lemma foldl_applyComponent_proj {α : Type} (g : VariantRow → α) (f : FSVComponent → Option α)
    (hgf : ∀ row c, g (applyComponent row c) = (f c).getD (g row))
    (l : List FSVComponent) (row : VariantRow) :
    g (l.foldl applyComponent row) = (l.filterMap f).getLastD (g row) := by
  induction l generalizing row with
  | nil => simp
  | cons c l ih =>
    cases hfc : f c with
    | none =>
      rw [List.foldl_cons, ih, hgf, hfc, List.filterMap_cons, hfc]
      simp
    | some v =>
      rw [List.foldl_cons, ih, hgf, hfc, List.filterMap_cons, hfc]
      rw [List.getLastD_cons, Option.getD_some]

/-- A component carrying a coded concept with the given leading code and
display. -/
def compOfCC (code display : String) : FSVComponent :=
  { code := { code := code, system := "http://loinc.org", display := none },
    valueCodeableConcept := some { code := "", system := "", display := some display },
    valueString := none, interpretation := none, valueQuantity := none,
    valueRangeLow := none }

/-- A component carrying a quantity with the given leading code and value. -/
def compOfQty (code : String) (v : ℚ) : FSVComponent :=
  { code := { code := code, system := "http://loinc.org", display := none },
    valueCodeableConcept := none, valueString := none, interpretation := none,
    valueQuantity := some v, valueRangeLow := none }

/-- The Scenario A variant resource: spdi, allelic state and allele frequency
components. -/
def scenarioResource : FSVVariantResource :=
  { category := [], code := { code := "69548-6", system := "http://loinc.org", display := none },
    component := [compOfCC "81252-9" "NC_000001.11:low", compOfCC "53034-5" "Heterozygous",
                  compOfQty "81258-6" 0.35],
    id := "v1", metaProfile := [], resourceType := "Observation", status := "final",
    subjectReference := "Patient/p1",
    valueCodeableConcept := { code := "LA9633-4", system := "", display := none },
    text := none }

/-- The Scenario A payload: one part named `"variant"`. -/
def scenarioPayload : FSVResponse :=
  { parameter := [{ name := "variants",
                    part := some [{ name := "variant", resource := some scenarioResource,
                                    valueString := none, valueBoolean := none }] }],
    resourceType := "Parameters" }

/-- The row Scenario A translates to. -/
def scenarioRow : VariantRow :=
  { spdi := "NC_000001.11:low", dnaChangeType := "", sourceClass := "",
    allelicState := "Heterozygous", molecImpact := "", alleleFreq := some 0.35 }

/-- A non-variant part entry (an annotation-style `"note"` part). -/
def noteParam : FSVParameter :=
  { name := "note", resource := none, valueString := some "text", valueBoolean := none }

/-- A retained `"variant"` part entry. -/
def variantParam : FSVParameter :=
  { name := "variant", resource := some scenarioResource, valueString := none,
    valueBoolean := none }

/-- A payload mixing a skipped and a retained part. -/
def mixedPayload : FSVResponse :=
  { parameter := [{ name := "variants", part := some [noteParam, variantParam] }],
    resourceType := "Parameters" }

/-- A coordinate-lookup entry whose `build38Coordinates` field is absent. -/
def fcMissingField : FeatureCoordinate :=
  { mane := [], build37Coordinates := none, build38Coordinates := none,
    geneId := "g1", geneLink := "", geneSymbol := "TPMT", transcripts := [] }

/-- A well-formed coordinate-lookup entry. -/
def fcGood : FeatureCoordinate :=
  { mane := [], build37Coordinates := some "chr6:18155397-18128542",
    build38Coordinates := some "chr6:18128542-18155397",
    geneId := "7172", geneLink := "", geneSymbol := "TPMT", transcripts := [] }

/-- The single stuck kernel decision for the Scenario A literal: `0.35 ≠ 0`. -/
lemma freqLit_ne_zero : ((0.35 : ℚ) = 0) = False := by norm_num

/-- Evaluation of the mixed payload: the `"note"` part is skipped, the
`"variant"` part contributes the Scenario A row. -/
lemma mixedPayload_translation : translateFHIRResponse mixedPayload = .ok [scenarioRow] := by
  simp [translateFHIRResponse, mixedPayload, noteParam, variantParam, pushVariantRow,
        translateComponents, scenarioResource, compOfCC, compOfQty, applyComponent,
        initVariantRow, scenarioRow, freqLit_ne_zero, List.foldl_cons, List.foldl_nil]

lemma freqWrite_ne_some_zero (c : FSVComponent) (w : Option ℚ) (h : freqWrite c = some w) :
    w ≠ some 0 := by
  intro hw
  subst hw
  unfold freqWrite at h
  repeat' split at h
  all_goals simp_all

lemma getLastD_ne_some_zero (ws : List (Option ℚ)) (d : Option ℚ)
    (hws : ∀ w ∈ ws, w ≠ some 0) (hd : d ≠ some 0) : ws.getLastD d ≠ some 0 := by
  induction ws generalizing d with
  | nil => simpa using hd
  | cons w ws ih =>
    rw [List.getLastD_cons]
    exact ih w (fun x hx => hws x (List.mem_cons_of_mem _ hx)) (hws w (List.mem_cons_self _ _))

lemma foldl_applyComponent_dna (l : List FSVComponent) (row : VariantRow) :
    (l.foldl applyComponent row).dnaChangeType = row.dnaChangeType := by
  induction l generalizing row with
  | nil => rfl
  | cons c l ih => rw [List.foldl_cons, ih, applyComponent_dnaChangeType]

lemma translateComponents_dna (r : FSVVariantResource) :
    (translateComponents r).dnaChangeType = "" :=
  foldl_applyComponent_dna r.component initVariantRow

lemma entryRow_dna (param : FSVParameter) : (entryRow param).dnaChangeType = "" := by
  unfold entryRow
  cases hr : param.resource with
  | none => simp [hr, initVariantRow]
  | some r => simp [hr, translateComponents_dna r]

/-- C1: a payload whose top-level parameter array lacks its first grouping
entry, or whose first grouping entry lacks the part-list, makes
`translateFHIRResponse` fail with a `MalformedPayload` error returned to the
caller, never a silently tolerated success. -/
theorem translateFHIRResponse_malformed (response : FSVResponse)
    (h : response.parameter = [] ∨
         ∃ g rest, response.parameter = g :: rest ∧ g.part = none) :
    translateFHIRResponse response = .error .MalformedPayload := by
  rcases h with h | ⟨g, rest, hp, hpart⟩
  · simp [translateFHIRResponse, h]
  · simp [translateFHIRResponse, hp, hpart]

/-- Witness: the malformed-payload theorem at the empty parameter array. -/
theorem translateFHIRResponse_malformed_witness :
    translateFHIRResponse { parameter := [], resourceType := "Parameters" } =
      .error .MalformedPayload :=
  translateFHIRResponse_malformed _ (Or.inl rfl)

/-- C4: the translator excludes exactly the part entries that are not named
`"variant"` or lack a resource: the output has one row per retained entry
(the count of entries satisfying `isVariantEntry`), and deleting any
non-retained entry from the part-list leaves the output unchanged. -/
theorem translateFHIRResponse_filtering (response : FSVResponse)
    (g : FSVParameterGroup) (rest : List FSVParameterGroup)
    (parts : List FSVParameter) (rows : List VariantRow)
    (hp : response.parameter = g :: rest) (hpart : g.part = some parts)
    (hok : translateFHIRResponse response = .ok rows) :
    rows.length = parts.countP isVariantEntry
    ∧ ∀ pre param post, parts = pre ++ param :: post → isVariantEntry param = false →
        translateFHIRResponse
          { response with parameter := { g with part := some (pre ++ post) } :: rest } =
          .ok rows := by
  have hchar := translateFHIRResponse_ok response g rest parts hp hpart
  rw [hok] at hchar
  injection hchar with hrows
  constructor
  · rw [hrows, List.length_map, List.countP_eq_length_filter]
  · intro pre param post hparts hskip
    rw [translateFHIRResponse_ok _ { g with part := some (pre ++ post) } rest (pre ++ post)
          rfl rfl,
        hrows, hparts, List.filter_append, List.filter_append,
        List.filter_cons_of_neg (by simp [hskip])]

/-- Witness: the filtering theorem at the mixed payload, dropping the
`"note"` entry. -/
theorem translateFHIRResponse_filtering_witness :
    ([scenarioRow] : List VariantRow).length = [noteParam, variantParam].countP isVariantEntry
    ∧ translateFHIRResponse
        { parameter := [{ name := "variants", part := some [variantParam] }],
          resourceType := "Parameters" } = .ok [scenarioRow] := by
  have h := translateFHIRResponse_filtering mixedPayload
      { name := "variants", part := some [noteParam, variantParam] } []
      [noteParam, variantParam] [scenarioRow] rfl rfl mixedPayload_translation
  exact ⟨h.1, h.2 [] noteParam [variantParam] rfl rfl⟩

/-- C5: the rows of a successful translation are the ordered image of the
`"variant"`-named entries of the part-list, in their original order. -/
theorem translateFHIRResponse_order (response : FSVResponse) (g : FSVParameterGroup)
    (rest : List FSVParameterGroup) (parts : List FSVParameter) (rows : List VariantRow)
    (hp : response.parameter = g :: rest) (hpart : g.part = some parts)
    (hok : translateFHIRResponse response = .ok rows) :
    rows = (parts.filter isVariantEntry).map entryRow := by
  have hchar := translateFHIRResponse_ok response g rest parts hp hpart
  rw [hok] at hchar
  exact Except.ok.inj hchar

/-- Witness: the ordering theorem at the mixed payload. -/
theorem translateFHIRResponse_order_witness :
    ([scenarioRow] : List VariantRow) =
      ([noteParam, variantParam].filter isVariantEntry).map entryRow :=
  translateFHIRResponse_order mixedPayload
    { name := "variants", part := some [noteParam, variantParam] } []
    [noteParam, variantParam] [scenarioRow] rfl rfl mixedPayload_translation

/-- C6: Scenario A: the one-variant payload with components `81252-9`,
`53034-5` and `81258-6` translates to exactly one row with the display
strings, allele frequency `0.35`, and the remaining fields at their
defaults. -/
theorem scenarioA_translation :
    translateFHIRResponse scenarioPayload =
      .ok [{ spdi := "NC_000001.11:low", dnaChangeType := "", sourceClass := "",
             allelicState := "Heterozygous", molecImpact := "",
             alleleFreq := some (0.35 : ℚ) }] := by
  simp [translateFHIRResponse, scenarioPayload, pushVariantRow, translateComponents,
        scenarioResource, compOfCC, compOfQty, applyComponent, initVariantRow,
        freqLit_ne_zero, List.foldl_cons, List.foldl_nil]

/-- C3: last-write-wins assignment semantics of the component loop: every
recognized code's target field equals the last successful write performed by
a component with that code (so when the same recognized code appears more
than once, the last occurrence with a usable value wins), or the default
when no component writes it. -/
theorem translateComponents_last_write_wins (resource : FSVVariantResource) :
    (translateComponents resource).sourceClass
        = (resource.component.filterMap (ccWrite "48002-0")).getLastD ""
    ∧ (translateComponents resource).allelicState
        = (resource.component.filterMap (ccWrite "53034-5")).getLastD ""
    ∧ (translateComponents resource).spdi
        = (resource.component.filterMap (ccWrite "81252-9")).getLastD ""
    ∧ (translateComponents resource).alleleFreq
        = (resource.component.filterMap freqWrite).getLastD none
    ∧ (translateComponents resource).molecImpact
        = (resource.component.filterMap impactWrite).getLastD "" :=
  ⟨foldl_applyComponent_proj _ _ applyComponent_sourceClass resource.component initVariantRow,
   foldl_applyComponent_proj _ _ applyComponent_allelicState resource.component initVariantRow,
   foldl_applyComponent_proj _ _ applyComponent_spdi resource.component initVariantRow,
   foldl_applyComponent_proj _ _ applyComponent_alleleFreq resource.component initVariantRow,
   foldl_applyComponent_proj _ _ applyComponent_molecImpact resource.component initVariantRow⟩

/-- C9: a `81258-6` component whose quantity value is exactly `0` performs no
assignment (JavaScript falsiness), exactly like an absent quantity, and
consequently no translated row ever reports an allele frequency of `0`. -/
theorem alleleFreq_zero_suppressed :
    (∀ row c v, c.code.code = "81258-6" → c.valueQuantity = some v → v = 0 →
        applyComponent row c = row)
    ∧ ∀ resource, (translateComponents resource).alleleFreq ≠ some 0 := by
  constructor
  · intro row c v h1 h2 h3
    unfold applyComponent
    simp [h1, h2, h3]
  · intro resource
    unfold translateComponents
    rw [foldl_applyComponent_proj _ _ applyComponent_alleleFreq resource.component
          initVariantRow]
    refine getLastD_ne_some_zero _ _ (fun w hw => ?_) (by simp [initVariantRow])
    obtain ⟨c, _, hfw⟩ := List.mem_filterMap.mp hw
    exact freqWrite_ne_some_zero c w hfw

/-- Witness: the zero-frequency suppression at a concrete zero-valued
component and at the Scenario A resource. -/
theorem alleleFreq_zero_suppressed_witness :
    applyComponent initVariantRow (compOfQty "81258-6" 0) = initVariantRow
    ∧ (translateComponents scenarioResource).alleleFreq ≠ some 0 :=
  ⟨alleleFreq_zero_suppressed.1 initVariantRow (compOfQty "81258-6" 0) 0 rfl rfl rfl,
   alleleFreq_zero_suppressed.2 scenarioResource⟩

/-- C10: no branch of the component loop assigns `dnaChangeType`, so every
row of every successful translation carries the empty-string default. -/
theorem translate_dnaChangeType_default (response : FSVResponse)
    (rows : List VariantRow) (row : VariantRow)
    (hok : translateFHIRResponse response = .ok rows) (hrow : row ∈ rows) :
    row.dnaChangeType = "" := by
  cases hp : response.parameter with
  | nil => simp [translateFHIRResponse, hp] at hok
  | cons g rest =>
    cases hpart : g.part with
    | none => simp [translateFHIRResponse, hp, hpart] at hok
    | some parts =>
      rw [translateFHIRResponse_ok response g rest parts hp hpart] at hok
      injection hok with hrows
      rw [← hrows] at hrow
      obtain ⟨param, _, hrow_eq⟩ := List.mem_map.mp hrow
      rw [← hrow_eq]
      exact entryRow_dna param

/-- Witness: the `dnaChangeType` default at the mixed payload's row. -/
theorem translate_dnaChangeType_default_witness : scenarioRow.dnaChangeType = "" :=
  translate_dnaChangeType_default mixedPayload [scenarioRow] scenarioRow
    mixedPayload_translation (by simp)

/-- C7: calling `getFSV` with the empty coordinate range is a no-op: the
guard returns before the fetch, so no request is issued, no rows are
produced, and the state (readiness included) is unchanged. -/
theorem getFSV_empty_range_noop (patientID : String) (env : FSVResponse) (st : GBState)
    (h : st.range = .str "") : getFSV patientID env st = ([], st, none) := by
  simp [getFSV, h, JSStr.looseEqEmpty]

/-- Witness: the empty-range no-op at the initial state. -/
theorem getFSV_empty_range_noop_witness :
    getFSV "p1" scenarioPayload initGBState = ([], initGBState, none) :=
  getFSV_empty_range_noop "p1" scenarioPayload initGBState rfl

/-- C8: once a non-empty range is cached, `getFC` returns immediately with no
request and an unchanged state; and a fresh resolution followed by a second
call issues exactly one request in total, the second call changing nothing. -/
theorem getFC_memoized :
    (∀ gene env st s, st.range = .str s → s ≠ "" → getFC gene env st = ([], st, none))
    ∧ (∀ gene e rest env2 st, st.range = .str "" → e.build38Coordinates ≠ some "" →
        (getFC gene (e :: rest) st).1.length = 1
        ∧ getFC gene env2 (getFC gene (e :: rest) st).2.1 =
            ([], (getFC gene (e :: rest) st).2.1, none)) := by
  constructor
  · intro gene env st s h hne
    simp [getFC, h, JSStr.looseEqEmpty, hne]
  · intro gene e rest env2 st h hne
    refine ⟨by simp [getFC, h, JSStr.looseEqEmpty], ?_⟩
    cases hb : e.build38Coordinates with
    | none => simp [getFC, h, hb, JSStr.looseEqEmpty]
    | some s =>
      have hs : s ≠ "" := fun hseq => hne (by rw [hb, hseq])
      simp [getFC, h, hb, JSStr.looseEqEmpty, hs]

/-- Witness: memoization at a cached state, and a fresh two-call run against
the well-formed coordinate entry. -/
theorem getFC_memoized_witness :
    getFC "TPMT" []
        { range := .str "chr6:18128542-18155397", apiStatus := "yellow", geneData := none } =
      ([], { range := .str "chr6:18128542-18155397", apiStatus := "yellow", geneData := none },
       none)
    ∧ ((getFC "TPMT" [fcGood] initGBState).1.length = 1
       ∧ getFC "TPMT" [] (getFC "TPMT" [fcGood] initGBState).2.1 =
           ([], (getFC "TPMT" [fcGood] initGBState).2.1, none)) :=
  ⟨getFC_memoized.1 "TPMT" [] _ "chr6:18128542-18155397" rfl (by decide),
   getFC_memoized.2 "TPMT" fcGood [] [] initGBState rfl (by decide)⟩

/-- C2 counterexample: for the coordinate response whose first entry lacks
`build38Coordinates`, the orchestration does NOT halt: the variant lookup is
issued (with the literal text `"undefined"` as the range), the cache is
updated away from its initial value, and no error is reported. -/
theorem coordinate_missing_field_counterexample :
    Request.fsv (baseURLFSV ++ "p1" ++ "&ranges=" ++ "undefined" ++ "&includeVariants=true")
        ∈ (getFHIRResponse "TPMT" "p1" [fcMissingField] scenarioPayload initGBState).1
    ∧ (getFHIRResponse "TPMT" "p1" [fcMissingField] scenarioPayload initGBState).2.1.range
        ≠ initGBState.range
    ∧ (getFHIRResponse "TPMT" "p1" [fcMissingField] scenarioPayload initGBState).2.2
        ≠ some .ResolutionFailed := by
  refine ⟨?_, ?_, ?_⟩ <;> decide

/-- C2 amended: the two malformed shapes behave differently. An empty
coordinate sequence makes the resolver throw (`ResolutionFailed`), leaves the
cached range untouched, and the variant lookup is never issued; but a first
entry lacking the build-coordinate field is cached as the undefined marker
and the orchestration proceeds to issue the variant lookup with the literal
text `"undefined"` in the URL. -/
theorem getFC_malformed_split :
    (∀ gene patientID fsvEnv st, st.range = .str "" →
        getFHIRResponse gene patientID [] fsvEnv st =
          ([.fc (baseURLFC ++ gene)], { st with apiStatus := "yellow" },
           some .ResolutionFailed))
    ∧ (∀ gene patientID e rest fsvEnv st, st.range = .str "" →
        e.build38Coordinates = none →
        (getFHIRResponse gene patientID (e :: rest) fsvEnv st).1 =
          [.fc (baseURLFC ++ gene),
           .fsv (baseURLFSV ++ patientID ++ "&ranges=" ++ "undefined" ++
                 "&includeVariants=true")]
        ∧ (getFHIRResponse gene patientID (e :: rest) fsvEnv st).2.1.range = .undef) := by
  constructor
  · intro gene patientID fsvEnv st h
    simp [getFHIRResponse, getFC, h, JSStr.looseEqEmpty]
  · intro gene patientID e rest fsvEnv st h hb
    cases htr : translateFHIRResponse fsvEnv with
    | error err =>
      constructor <;>
        simp [getFHIRResponse, getFC, getFSV, h, hb, htr, JSStr.looseEqEmpty, JSStr.coerce]
    | ok rows =>
      constructor <;>
        simp [getFHIRResponse, getFC, getFSV, h, hb, htr, JSStr.looseEqEmpty, JSStr.coerce]

/-- Witness: the amended behavior at the empty response and at the
missing-field response. -/
theorem getFC_malformed_split_witness :
    getFHIRResponse "TPMT" "p1" [] scenarioPayload initGBState =
      ([.fc (baseURLFC ++ "TPMT")], { initGBState with apiStatus := "yellow" },
       some .ResolutionFailed)
    ∧ ((getFHIRResponse "TPMT" "p1" [fcMissingField] scenarioPayload initGBState).1 =
        [.fc (baseURLFC ++ "TPMT"),
         .fsv (baseURLFSV ++ "p1" ++ "&ranges=" ++ "undefined" ++ "&includeVariants=true")]
       ∧ (getFHIRResponse "TPMT" "p1" [fcMissingField] scenarioPayload
            initGBState).2.1.range = .undef) :=
  ⟨getFC_malformed_split.1 "TPMT" "p1" scenarioPayload initGBState rfl,
   getFC_malformed_split.2 "TPMT" "p1" fcMissingField [] scenarioPayload initGBState rfl rfl⟩
